import Mathlib

set_option maxRecDepth 4000

/-!
# PokePort — verification of the PPU state model and export bridge

Shallow embedding of the PokePort repository (a PC-side reconstruction of a
handheld 2D picture-processing unit).  The embedding follows the C/C++
sources:

* `src/bridge/agb_bridge.h`  — canonical snapshot structures (`AgbHwState`,
  `BGParam`, `WinState`, `FxRegs`, `Scanline`, `AffineParam`, `ObjAff`);
* `src/bridge/agb_bridge.cpp` — `agb_init_hw` (demo scene builder) and
  `agb_sync_to_renderer` (marshalling into the backend's buffers);
* `src/hal/gba_port.h` — register mirror `gba::Regs` and the decode path
  `gba::snapshot_to`;
* `src/hal/gba_hw_redirect.cpp` — `sync_io_to_gba_state`, copying a mock
  I/O register array into the mirror;
* `src/renderer/src/agb_vk.cpp` — `write_bytes_as_u32` (byte regions are
  expanded to one 32-bit slot per byte) and the buffer size constants.

Machine integers are modelled as `Nat` (unsigned `uint8_t`/`uint16_t`/
`uint32_t`) and `Int` (signed `int16_t`/`int32_t`); byte stores truncate
with `% 256` exactly as an assignment to `uint8_t` does.  Byte-addressable
memories are total functions `Nat → Fin 256`; only indices below the
region's size model real bytes.
-/

/-- A byte value: the result of storing an arbitrary machine word into a
`uint8_t` location (C truncates to the low 8 bits). -/
def byteOf (v : Nat) : Fin 256 := ⟨v % 256, Nat.mod_lt _ (by norm_num)⟩

/-- Store one byte at `off` (models `dst[off] = v` on a `uint8_t` array). -/
def wr8 (m : Nat → Fin 256) (off v : Nat) : Nat → Fin 256 :=
  fun i => if i = off then byteOf v else m i

/-- `put16LE` from `src/bridge/agb_bridge.cpp`: store a 16-bit value as two
little-endian bytes. -/
def put16LE (m : Nat → Fin 256) (off v : Nat) : Nat → Fin 256 :=
  wr8 (wr8 m off (v &&& 0xFF)) (off + 1) ((v >>> 8) &&& 0xFF)

/-- Read a 16-bit little-endian value from a byte memory. -/
def read16LE (m : Nat → Fin 256) (off : Nat) : Nat :=
  (m off : Nat) + 256 * (m (off + 1) : Nat)

/-- Reinterpret a 16-bit pattern as a signed `int16_t` (two's complement). -/
def toInt16 (v : Nat) : Int :=
  if v % 65536 < 32768 then ((v % 65536 : Nat) : Int)
  else ((v % 65536 : Nat) : Int) - 65536

/-- Reinterpret a 32-bit pattern as a signed `int32_t` (two's complement). -/
def toInt32 (v : Nat) : Int :=
  if v % 4294967296 < 2147483648 then ((v % 4294967296 : Nat) : Int)
  else ((v % 4294967296 : Nat) : Int) - 4294967296

/-- Store a signed value into a `uint32_t` slot (two's complement wrap). -/
def intToU32 (z : Int) : Nat := (z % 4294967296).toNat

/-! ## Fixed sizes — `src/bridge/agb_bridge.h` lines 16-24 -/

def AGB_VRAM_SIZE : Nat := 96 * 1024
def AGB_PAL_BG_SIZE : Nat := 1024
def AGB_PAL_OBJ_SIZE : Nat := 512
def AGB_OAM_SIZE : Nat := 1024
def AGB_SCANLINES : Nat := 160
def AGB_BG_COUNT : Nat := 4
def AGB_BG_PARAM_DWORDS : Nat := 8
def AGB_BG_AFF_COUNT : Nat := 4
def AGB_OBJ_AFF_COUNT : Nat := 32

def AGB_BG_FLAG_AFFINE : Nat := 1
def AGB_BG_FLAG_WRAP : Nat := 2
def AGB_BG_FLAG_MOSAIC : Nat := 4

/-- `BGParam` (`src/bridge/agb_bridge.h`): 8 `uint32_t` per background.
`pad` models the `_pad` member. -/
structure BGParam where
  charBase : Nat
  screenBase : Nat
  hofs : Nat
  vofs : Nat
  pri : Nat
  enabled : Nat
  flags : Nat
  pad : Nat

/-- `WinState` (`src/bridge/agb_bridge.h`).  The C arrays `win0[4]` and
`win1[4]` hold `x1,y1,x2,y2` (exclusive upper bound); here they are spelled
out as four named fields each, in array order. -/
structure WinState where
  win0x1 : Nat
  win0y1 : Nat
  win0x2 : Nat
  win0y2 : Nat
  win1x1 : Nat
  win1y1 : Nat
  win1x2 : Nat
  win1y2 : Nat
  winIn0 : Nat
  winIn1 : Nat
  winOut : Nat
  winObj : Nat

/-- `FxRegs` (`src/bridge/agb_bridge.h`): blend and mosaic registers. -/
structure FxRegs where
  bldcnt : Nat
  bldalpha : Nat
  bldy : Nat
  mosaic : Nat

/-- `Scanline` (`src/bridge/agb_bridge.h`): one per-scanline override
record, 20 `uint32_t` = 80 bytes.  `p0..p3` model the `_p0.._p3` padding
members.  Per the header comment, `flags` bit 0 = scroll override enabled. -/
structure Scanline where
  hofs : Fin 4 → Nat
  vofs : Fin 4 → Nat
  win0x1 : Nat
  win0x2 : Nat
  p0 : Nat
  p1 : Nat
  win1x1 : Nat
  win1x2 : Nat
  p2 : Nat
  p3 : Nat
  bldcnt : Nat
  bldalpha : Nat
  bldy : Nat
  flags : Nat

/-- `AffineParam` (`src/bridge/agb_bridge.h`): 6 signed 32-bit words. -/
structure AffineParam where
  refX : Int
  refY : Int
  pa : Int
  pb : Int
  pc : Int
  pd : Int

/-- `ObjAff` (`src/bridge/agb_bridge.h`): one sprite affine set. -/
structure ObjAff where
  pa : Int
  pb : Int
  pc : Int
  pd : Int

/-- `AgbHwState` (`src/bridge/agb_bridge.h`): the full canonical snapshot.
Byte regions are functions from byte index; fixed-count arrays are
functions from the index type. -/
structure AgbHwState where
  vram : Nat → Fin 256
  pal_bg : Nat → Fin 256
  pal_obj : Nat → Fin 256
  oam : Nat → Fin 256
  bg_params : Fin 4 → BGParam
  win : WinState
  fx : FxRegs
  scan : Nat → Scanline
  bgAff : Fin 4 → AffineParam
  objAff : Nat → ObjAff

/-- The all-zero `Scanline` record (result of `memset 0`). -/
def zeroScanline : Scanline :=
  { hofs := fun _ => 0, vofs := fun _ => 0
    win0x1 := 0, win0x2 := 0, p0 := 0, p1 := 0
    win1x1 := 0, win1x2 := 0, p2 := 0, p3 := 0
    bldcnt := 0, bldalpha := 0, bldy := 0, flags := 0 }

/-- The all-zero snapshot (result of `memset(hw, 0, sizeof *hw)`). -/
def zeroHw : AgbHwState :=
  { vram := fun _ => 0, pal_bg := fun _ => 0, pal_obj := fun _ => 0
    oam := fun _ => 0
    bg_params := fun _ =>
      { charBase := 0, screenBase := 0, hofs := 0, vofs := 0
        pri := 0, enabled := 0, flags := 0, pad := 0 }
    win :=
      { win0x1 := 0, win0y1 := 0, win0x2 := 0, win0y2 := 0
        win1x1 := 0, win1y1 := 0, win1x2 := 0, win1y2 := 0
        winIn0 := 0, winIn1 := 0, winOut := 0, winObj := 0 }
    fx := { bldcnt := 0, bldalpha := 0, bldy := 0, mosaic := 0 }
    scan := fun _ => zeroScanline
    bgAff := fun _ => { refX := 0, refY := 0, pa := 0, pb := 0, pc := 0, pd := 0 }
    objAff := fun _ => { pa := 0, pb := 0, pc := 0, pd := 0 } }

namespace gba

/-- One entry of `gba::Regs::ObjAff` (`src/hal/gba_port.h`): an 8.8
fixed-point sprite affine set held in `int16_t` registers. -/
structure ObjAffReg where
  pa : Int
  pb : Int
  pc : Int
  pd : Int

/-- `gba::Regs` (`src/hal/gba_port.h`): the mutable register mirror written
by emulated code.  16-bit registers are `Nat`, signed affine registers are
`Int`. -/
structure Regs where
  DISPCNT : Nat
  BG_CNT : Fin 4 → Nat
  BG_HOFS : Fin 4 → Nat
  BG_VOFS : Fin 4 → Nat
  WIN0H_x1 : Nat
  WIN0H_x2 : Nat
  WIN0V_y1 : Nat
  WIN0V_y2 : Nat
  WIN1H_x1 : Nat
  WIN1H_x2 : Nat
  WIN1V_y1 : Nat
  WIN1V_y2 : Nat
  WININ : Nat
  WINOUT : Nat
  BLDCNT : Nat
  BLDALPHA : Nat
  BLDY : Nat
  MOSAIC : Nat
  BG2PA : Int
  BG2PB : Int
  BG2PC : Int
  BG2PD : Int
  BG2X : Int
  BG2Y : Int
  BG3PA : Int
  BG3PB : Int
  BG3PC : Int
  BG3PD : Int
  BG3X : Int
  BG3Y : Int
  OBJ_AFF : Nat → ObjAffReg

/-- The whole HAL-side mutable state (`gba::VRAM`, `gba::PAL_BG`,
`gba::PAL_OBJ`, `gba::OAM`, `gba::REG` from `src/hal/gba_port.h`). -/
structure GbaState where
  VRAM : Nat → Fin 256
  PAL_BG : Nat → Fin 256
  PAL_OBJ : Nat → Fin 256
  OAM : Nat → Fin 256
  REG : Regs

/-- `charBaseBytes` lambda in `gba::snapshot_to`: 2 bits (2..3) select a
block in 16 KB units. -/
def charBaseBytes (bgcnt : Nat) : Nat := ((bgcnt >>> 2) &&& 0x3) * 16 * 1024

/-- `screenBaseBytes` lambda in `gba::snapshot_to`: 5 bits (8..12) select a
block in 2 KB units. -/
def screenBaseBytes (bgcnt : Nat) : Nat := ((bgcnt >>> 8) &&& 0x1F) * 2 * 1024

/-- `pri` lambda in `gba::snapshot_to`. -/
def priOf (bgcnt : Nat) : Nat := bgcnt &&& 3

/-- `mosaicFlag` lambda in `gba::snapshot_to`. -/
def mosaicFlag (bgcnt : Nat) : Nat :=
  if bgcnt &&& (1 <<< 6) ≠ 0 then AGB_BG_FLAG_MOSAIC else 0

/-- `gba::snapshot_to` (`src/hal/gba_port.h`): decode the register mirror
into the canonical `AgbHwState`.  The per-scanline table is cleared
(`memset(hw.scan, 0, ...)`); `bgAff` entries 0 and 1 are not written by the
source and keep the target's previous contents; `X >>> 20` is the
arithmetic right shift performed on the `int32_t` registers. -/
def snapshot_to (g : GbaState) (hw : AgbHwState) : AgbHwState :=
  { vram := g.VRAM
    pal_bg := g.PAL_BG
    pal_obj := g.PAL_OBJ
    oam := g.OAM
    bg_params := fun i =>
      { charBase := charBaseBytes (g.REG.BG_CNT i)
        screenBase := screenBaseBytes (g.REG.BG_CNT i)
        hofs := g.REG.BG_HOFS i
        vofs := g.REG.BG_VOFS i
        pri := priOf (g.REG.BG_CNT i)
        enabled := 1
        flags := mosaicFlag (g.REG.BG_CNT i) |||
          (if 2 ≤ (i : Nat) then AGB_BG_FLAG_AFFINE else 0)
        pad := 0 }
    win :=
      { win0x1 := g.REG.WIN0H_x1, win0y1 := g.REG.WIN0V_y1
        win0x2 := g.REG.WIN0H_x2, win0y2 := g.REG.WIN0V_y2
        win1x1 := g.REG.WIN1H_x1, win1y1 := g.REG.WIN1V_y1
        win1x2 := g.REG.WIN1H_x2, win1y2 := g.REG.WIN1V_y2
        winIn0 := g.REG.WININ &&& 0x3F
        winIn1 := (g.REG.WININ >>> 8) &&& 0x3F
        winOut := g.REG.WINOUT &&& 0x3F
        winObj := (g.REG.WINOUT >>> 8) &&& 0x3F }
    fx :=
      { bldcnt := g.REG.BLDCNT, bldalpha := g.REG.BLDALPHA
        bldy := g.REG.BLDY, mosaic := g.REG.MOSAIC }
    scan := fun _ => zeroScanline
    bgAff := fun i =>
      if i = 2 then
        { refX := g.REG.BG2X >>> (20 : Nat), refY := g.REG.BG2Y >>> (20 : Nat)
          pa := g.REG.BG2PA, pb := g.REG.BG2PB
          pc := g.REG.BG2PC, pd := g.REG.BG2PD }
      else if i = 3 then
        { refX := g.REG.BG3X >>> (20 : Nat), refY := g.REG.BG3Y >>> (20 : Nat)
          pa := g.REG.BG3PA, pb := g.REG.BG3PB
          pc := g.REG.BG3PC, pd := g.REG.BG3PD }
      else hw.bgAff i
    objAff := fun i =>
      { pa := (g.REG.OBJ_AFF i).pa, pb := (g.REG.OBJ_AFF i).pb
        pc := (g.REG.OBJ_AFF i).pc, pd := (g.REG.OBJ_AFF i).pd } }

end gba

/-! ## `sync_io_to_gba_state` — `src/hal/gba_hw_redirect.cpp` -/

/-- I/O register offsets from `src/hal/gba_hw_redirect.h` (only the ones
`sync_io_to_gba_state` reads). -/
def OFFSET_REG_DISPCNT : Nat := 0x000
def OFFSET_REG_BG0CNT : Nat := 0x008
def OFFSET_REG_BG0HOFS : Nat := 0x010
def OFFSET_REG_BG0VOFS : Nat := 0x012
def OFFSET_REG_WIN0H : Nat := 0x040
def OFFSET_REG_WIN0V : Nat := 0x044
def OFFSET_REG_WININ : Nat := 0x048
def OFFSET_REG_WINOUT : Nat := 0x04A
def OFFSET_REG_MOSAIC : Nat := 0x04C
def OFFSET_REG_BLDCNT : Nat := 0x050
def OFFSET_REG_BLDALPHA : Nat := 0x052
def OFFSET_REG_BLDY : Nat := 0x054
def OFFSET_REG_BG2PA : Nat := 0x020
def OFFSET_REG_BG2PB : Nat := 0x022
def OFFSET_REG_BG2PC : Nat := 0x024
def OFFSET_REG_BG2PD : Nat := 0x026
def OFFSET_REG_BG2X : Nat := 0x028
def OFFSET_REG_BG2Y : Nat := 0x02C

/-- `sync_io_to_gba_state` (`src/hal/gba_hw_redirect.cpp`): copy the mock
I/O register array into the `gba::REG` mirror.  `io` maps a halfword index
to the `uint16_t` stored there.  The 32-bit reads (`BG2X`, `BG2Y`)
reinterpret two consecutive little-endian halfwords as an `int32_t`;
the 16-bit affine coefficients are reinterpreted as `int16_t`.  Fields the
function does not assign (notably the four WIN1 fields) keep their previous
values. -/
def sync_io_to_gba_state (r : gba.Regs) (io : Nat → Nat) : gba.Regs :=
  let win0h := io (OFFSET_REG_WIN0H / 2)
  let win0v := io (OFFSET_REG_WIN0V / 2)
  { r with
    DISPCNT := io (OFFSET_REG_DISPCNT / 2)
    BG_CNT := fun i => io ((OFFSET_REG_BG0CNT + (i : Nat) * 2) / 2)
    BG_HOFS := fun i => io ((OFFSET_REG_BG0HOFS + (i : Nat) * 4) / 2)
    BG_VOFS := fun i => io ((OFFSET_REG_BG0VOFS + (i : Nat) * 4) / 2)
    WIN0H_x1 := win0h &&& 0xFF
    WIN0H_x2 := (win0h >>> 8) &&& 0xFF
    WIN0V_y1 := win0v &&& 0xFF
    WIN0V_y2 := (win0v >>> 8) &&& 0xFF
    WININ := io (OFFSET_REG_WININ / 2)
    WINOUT := io (OFFSET_REG_WINOUT / 2)
    BLDCNT := io (OFFSET_REG_BLDCNT / 2)
    BLDALPHA := io (OFFSET_REG_BLDALPHA / 2)
    BLDY := io (OFFSET_REG_BLDY / 2) &&& 0xFF
    MOSAIC := io (OFFSET_REG_MOSAIC / 2)
    BG2PA := toInt16 (io (OFFSET_REG_BG2PA / 2))
    BG2PB := toInt16 (io (OFFSET_REG_BG2PB / 2))
    BG2PC := toInt16 (io (OFFSET_REG_BG2PC / 2))
    BG2PD := toInt16 (io (OFFSET_REG_BG2PD / 2))
    BG2X := toInt32 (io (OFFSET_REG_BG2X / 2) % 65536 +
      65536 * (io (OFFSET_REG_BG2X / 2 + 1) % 65536))
    BG2Y := toInt32 (io (OFFSET_REG_BG2Y / 2) % 65536 +
      65536 * (io (OFFSET_REG_BG2Y / 2 + 1) % 65536)) }

/-! ## Bit-arithmetic helper lemmas -/

lemma and_three_eq_mod (n : Nat) : n &&& 3 = n % 4 := by
  simpa using Nat.and_pow_two_sub_one_eq_mod n 2

lemma and_thirtyone_eq_mod (n : Nat) : n &&& 0x1F = n % 32 := by
  simpa using Nat.and_pow_two_sub_one_eq_mod n 5

lemma and_255_eq_mod (n : Nat) : n &&& 0xFF = n % 256 := by
  simpa using Nat.and_pow_two_sub_one_eq_mod n 8

lemma int_shiftRight_20_eq_fdiv (x : Int) : x >>> (20 : Nat) = Int.fdiv x (2 ^ 20) := by
  rw [Int.shiftRight_eq_div_pow, Int.fdiv_eq_ediv _ (by positivity)]
  norm_num

/-- C1: for every value of a background-control register in the mirror, the
decode path `gba::snapshot_to` sets the background's char-data base byte
offset to `16384` times the 2-bit field at bits 3..2 (`v / 4 % 4`), and its
screen/map base byte offset to `2048` times the 5-bit field at bits 12..8
(`v / 256 % 32`). -/
theorem snapshot_to_base_offsets (g : gba.GbaState) (hw : AgbHwState) (i : Fin 4) :
    ((gba.snapshot_to g hw).bg_params i).charBase =
      16384 * (g.REG.BG_CNT i / 4 % 4) ∧
    ((gba.snapshot_to g hw).bg_params i).screenBase =
      2048 * (g.REG.BG_CNT i / 256 % 32) := by
  constructor
  · show gba.charBaseBytes (g.REG.BG_CNT i) = _
    rw [gba.charBaseBytes, Nat.shiftRight_eq_div_pow, and_three_eq_mod]
    omega
  · show gba.screenBaseBytes (g.REG.BG_CNT i) = _
    rw [gba.screenBaseBytes, Nat.shiftRight_eq_div_pow, and_thirtyone_eq_mod]
    omega

/-- C2: for every state of the mirror's affine registers, `gba::snapshot_to`
sets the captured reference coordinates of backgrounds 2 and 3 to the 28.8
fixed-point register values arithmetically shifted right by 20 bits (floor
division by `2 ^ 20`), and copies the four rotation/scale coefficients
through unchanged. -/
theorem snapshot_to_affine_decode (g : gba.GbaState) (hw : AgbHwState) :
    ((gba.snapshot_to g hw).bgAff 2).refX = Int.fdiv g.REG.BG2X (2 ^ 20) ∧
    ((gba.snapshot_to g hw).bgAff 2).refY = Int.fdiv g.REG.BG2Y (2 ^ 20) ∧
    ((gba.snapshot_to g hw).bgAff 2).pa = g.REG.BG2PA ∧
    ((gba.snapshot_to g hw).bgAff 2).pb = g.REG.BG2PB ∧
    ((gba.snapshot_to g hw).bgAff 2).pc = g.REG.BG2PC ∧
    ((gba.snapshot_to g hw).bgAff 2).pd = g.REG.BG2PD ∧
    ((gba.snapshot_to g hw).bgAff 3).refX = Int.fdiv g.REG.BG3X (2 ^ 20) ∧
    ((gba.snapshot_to g hw).bgAff 3).refY = Int.fdiv g.REG.BG3Y (2 ^ 20) ∧
    ((gba.snapshot_to g hw).bgAff 3).pa = g.REG.BG3PA ∧
    ((gba.snapshot_to g hw).bgAff 3).pb = g.REG.BG3PB ∧
    ((gba.snapshot_to g hw).bgAff 3).pc = g.REG.BG3PC ∧
    ((gba.snapshot_to g hw).bgAff 3).pd = g.REG.BG3PD := by
  simp only [gba.snapshot_to]
  norm_num [int_shiftRight_20_eq_fdiv,
    show ((3 : Fin 4) = 2) ↔ False from by decide]

/-- C8: for every register mirror state and every prior target contents,
`gba::snapshot_to` sets the `enabled` field of all four captured background
parameter records to 1 — no mirror value observable through the decode path
can mark a background disabled. -/
theorem snapshot_to_enabled_always_one (g : gba.GbaState) (hw : AgbHwState)
    (i : Fin 4) : ((gba.snapshot_to g hw).bg_params i).enabled = 1 := rfl

/-- C9: `sync_io_to_gba_state` never reads the WIN1H/WIN1V entries of the
I/O mirror: for every prior register state and every content of the mock
I/O array, the four Window1 rectangle fields are unchanged after the call,
while the Window0 rectangle fields and the WININ/WINOUT masks are updated
from the mirror. -/
theorem sync_io_preserves_win1 (r : gba.Regs) (io : Nat → Nat) :
    (sync_io_to_gba_state r io).WIN1H_x1 = r.WIN1H_x1 ∧
    (sync_io_to_gba_state r io).WIN1H_x2 = r.WIN1H_x2 ∧
    (sync_io_to_gba_state r io).WIN1V_y1 = r.WIN1V_y1 ∧
    (sync_io_to_gba_state r io).WIN1V_y2 = r.WIN1V_y2 ∧
    (sync_io_to_gba_state r io).WIN0H_x1 = io (OFFSET_REG_WIN0H / 2) &&& 0xFF ∧
    (sync_io_to_gba_state r io).WIN0H_x2 =
      (io (OFFSET_REG_WIN0H / 2) >>> 8) &&& 0xFF ∧
    (sync_io_to_gba_state r io).WIN0V_y1 = io (OFFSET_REG_WIN0V / 2) &&& 0xFF ∧
    (sync_io_to_gba_state r io).WIN0V_y2 =
      (io (OFFSET_REG_WIN0V / 2) >>> 8) &&& 0xFF ∧
    (sync_io_to_gba_state r io).WININ = io (OFFSET_REG_WININ / 2) ∧
    (sync_io_to_gba_state r io).WINOUT = io (OFFSET_REG_WINOUT / 2) := by
  exact ⟨rfl, rfl, rfl, rfl, rfl, rfl, rfl, rfl, rfl, rfl⟩

/-! ## `agb_init_hw` — `src/bridge/agb_bridge.cpp`

The demo scene builder calls the host float library (`sinf`, `cosf`,
`lroundf`) to fill the per-scanline sine scroll and the two affine matrix
sets.  IEEE float evaluation is outside the shallow embedding, so those
already-rounded integer results are abstracted into a `FloatOracle`
parameter; every theorem below holds for every oracle, which is sound
because none of the verified fields depends on the float values. -/

/-- The integer results `agb_init_hw` obtains from float math:
`scanSin y` is `int(4.0f * sinf(y * pi / 16))`; `cs8`/`sn8` are
`fx8(cos 30 deg * 0.75)` / `fx8(sin 30 deg * 0.75)`; `csObj8`/`snObj8` are
`fx8(cos 30 deg)` / `fx8(sin 30 deg)`. -/
structure FloatOracle where
  scanSin : Nat → Int
  cs8 : Int
  sn8 : Int
  csObj8 : Int
  snObj8 : Int

/-- A concrete oracle (used only to instantiate universally quantified
theorems at a closed input). -/
def zeroOracle : FloatOracle :=
  { scanSin := fun _ => 0, cs8 := 0, sn8 := 0, csObj8 := 0, snObj8 := 0 }

/-- Fill one 4bpp tile (32 bytes, 4 bytes per row) with a constant byte:
the double loop over `row < 8`, `col < 4` in `agb_init_hw`. -/
def fill4bppTile (m : Nat → Fin 256) (base b : Nat) : Nat → Fin 256 :=
  (List.range 8).foldl (fun m1 row =>
    (List.range 4).foldl (fun m2 col => wr8 m2 (base + row * 4 + col) b) m1) m

/-- BG2 8bpp tile 0: coarse checker with indices 1 and 4
(`blk = ((y/2) xor (x/2)) and 1`). -/
def fillBG2Tile (m : Nat → Fin 256) : Nat → Fin 256 :=
  (List.range 8).foldl (fun m1 y =>
    (List.range 8).foldl (fun m2 x =>
      wr8 m2 (16 * 1024 + y * 8 + x)
        (if ((y / 2) ^^^ (x / 2)) &&& 1 = 1 then 1 else 4)) m1) m

/-- OBJ char region: 4bpp tiles 0..3 filled with nibble pattern `0x11`. -/
def fillObj4bpp (m : Nat → Fin 256) : Nat → Fin 256 :=
  (List.range 4).foldl (fun m1 t => fill4bppTile m1 (32 * 1024 + t * 32) 0x11) m

/-- OBJ char region: 8bpp tiles 16..19 filled with index 2. -/
def fillObj8bpp (m : Nat → Fin 256) : Nat → Fin 256 :=
  (List.range 4).foldl (fun m1 t =>
    (List.range 8).foldl (fun m2 row =>
      (List.range 8).foldl (fun m3 col =>
        wr8 m3 (32 * 1024 + (16 + t) * 64 + row * 8 + col) 2) m2) m1) m

/-- BG0 screenblock: 32x32 checker toggling tile 0/1 and palette bank 0/1. -/
def fillBG0Map (m : Nat → Fin 256) : Nat → Fin 256 :=
  (List.range 32).foldl (fun m1 ty =>
    (List.range 32).foldl (fun m2 tx =>
      put16LE m2 (64 * 1024 + 2 * (ty * 32 + tx))
        ((if (tx + ty) &&& 1 = 1 then 1 else 0) ||| ((tx &&& 1) <<< 12))) m1) m

/-- BG1 screenblock: all-transparent tile 1, then a 10x10 patch of tile 0
with alternating h/v flips starting at tile (10,5). -/
def fillBG1Map (m : Nat → Fin 256) : Nat → Fin 256 :=
  let filled := (List.range 32).foldl (fun m1 ty =>
    (List.range 32).foldl (fun m2 tx =>
      put16LE m2 (72 * 1024 + 2 * (ty * 32 + tx)) 1) m1) m
  (List.range 10).foldl (fun m1 ty =>
    (List.range 10).foldl (fun m2 tx =>
      put16LE m2 (72 * 1024 + 2 * ((5 + ty) * 32 + (10 + tx)))
        ((if tx &&& 1 = 1 then 1 <<< 10 else 0) |||
         (if ty &&& 1 = 1 then 1 <<< 11 else 0))) m1) filled

/-- BG2 affine map: one byte per entry, all tile 0. -/
def fillBG2Map (m : Nat → Fin 256) : Nat → Fin 256 :=
  (List.range 32).foldl (fun m1 ty =>
    (List.range 32).foldl (fun m2 tx =>
      wr8 m2 (80 * 1024 + ty * 32 + tx) 0) m1) m

/-- The VRAM contents written by `agb_init_hw`, in source order, starting
from the `memset 0` state. -/
def initVram : Nat → Fin 256 :=
  let m : Nat → Fin 256 := fun _ => 0
  let m := fill4bppTile m 0 0x11                 -- BG0 tile 0
  let m := fill4bppTile m 32 0x22                -- BG0 tile 1
  let m := fill4bppTile m (8 * 1024) 0x33        -- BG1 tile 0
  let m := fill4bppTile m (8 * 1024 + 32) 0x00   -- BG1 tile 1
  let m := fillBG2Tile m
  let m := fillObj4bpp m
  let m := fillObj8bpp m
  let m := fillBG0Map m
  let m := fillBG1Map m
  fillBG2Map m

/-- BG palette written by `agb_init_hw` (`setBGPal` calls). -/
def initPalBG : Nat → Fin 256 :=
  let m : Nat → Fin 256 := fun _ => 0
  let m := put16LE m (0 * 2) 0x4210
  let m := put16LE m (1 * 2) 0x0000
  let m := put16LE m (2 * 2) 0x7FFF
  let m := put16LE m (3 * 2) 0x001F
  let m := put16LE m (4 * 2) 0x03FF
  let m := put16LE m ((16 + 1) * 2) 0x03E0
  put16LE m ((16 + 2) * 2) 0x7C00

/-- OBJ palette written by `agb_init_hw` (`setOBJPal` calls). -/
def initPalOBJ : Nat → Fin 256 :=
  let m : Nat → Fin 256 := fun _ => 0
  let m := put16LE m (0 * 2) 0x0000
  let m := put16LE m (1 * 2) 0x7C1F
  put16LE m (2 * 2) 0x7FE0

/-- OAM contents written by `agb_init_hw`: all 128 entries hidden first
(attribute word 0 = 0x0200), then entries 0..3 overwritten with the demo
sprites, with each attribute composed exactly as in the source. -/
def initOAM : Nat → Fin 256 :=
  let m : Nat → Fin 256 := fun _ => 0
  let m := (List.range 128).foldl (fun mm i => put16LE mm (i * 8) 0x0200) m
  -- entry 0: 16x16 4bpp square at (12,12), priority 1
  let m := put16LE m 0 (12 &&& 0x00FF)
  let m := put16LE m 2 ((12 &&& 0x01FF) ||| (1 <<< 14))
  let m := put16LE m 4 (1 <<< 10)
  -- entry 1: 16x16 OBJ-window-mode square at (18,18)
  let m := put16LE m (8 + 0) ((18 &&& 0x00FF) ||| (2 <<< 10))
  let m := put16LE m (8 + 2) ((18 &&& 0x01FF) ||| (1 <<< 14))
  let m := put16LE m (8 + 4) (1 <<< 10)
  -- entry 2: 8bpp affine double-size semi-transparent mosaic at (44,24)
  let m := put16LE m (16 + 0)
    ((24 &&& 0x00FF) ||| (1 <<< 8) ||| (1 <<< 9) ||| (1 <<< 13) |||
      (1 <<< 12) ||| (1 <<< 10))
  let m := put16LE m (16 + 2) ((44 &&& 0x01FF) ||| (1 <<< 14) ||| (0 <<< 9))
  let m := put16LE m (16 + 4) (16 ||| (1 <<< 10))
  -- entry 3: 32x16 wide sprite at (24,40)
  let m := put16LE m (24 + 0) ((40 &&& 0xFF) ||| (1 <<< 14))
  let m := put16LE m (24 + 2) ((24 &&& 0x1FF) ||| (1 <<< 14))
  put16LE m (24 + 4) (1 <<< 10)

/-- Background parameters written by `agb_init_hw`. -/
def initBgParams : Fin 4 → BGParam := fun i =>
  if i = 0 then
    { charBase := 0, screenBase := 64 * 1024, hofs := 12, vofs := 7
      pri := 2, enabled := 1, flags := 0, pad := 0 }
  else if i = 1 then
    { charBase := 8 * 1024, screenBase := 72 * 1024, hofs := 100, vofs := 32
      pri := 1, enabled := 1, flags := AGB_BG_FLAG_MOSAIC, pad := 0 }
  else if i = 2 then
    { charBase := 16 * 1024, screenBase := 80 * 1024, hofs := 0, vofs := 0
      pri := 1, enabled := 1, flags := AGB_BG_FLAG_AFFINE ||| AGB_BG_FLAG_WRAP
      pad := 0 }
  else
    { charBase := 24 * 1024, screenBase := 88 * 1024, hofs := 0, vofs := 0
      pri := 3, enabled := 0, flags := 0, pad := 0 }

/-- Window rectangles and masks written by `agb_init_hw`. -/
def initWin : WinState :=
  { win0x1 := 8, win0y1 := 8, win0x2 := 112, win0y2 := 56
    win1x1 := 0, win1y1 := 0, win1x2 := 0, win1y2 := 0
    winIn0 := (1 <<< 0) ||| (1 <<< 1) ||| (1 <<< 4) ||| (1 <<< 5)
    winIn1 := 0
    winOut := 0x1F
    winObj := (1 <<< 0) ||| (1 <<< 5) }

/-- Color-math and mosaic registers written by `agb_init_hw`. -/
def initFx : FxRegs :=
  { bldcnt := (1 <<< 1) ||| (2 <<< 6)
    bldalpha := 8 ||| (8 <<< 8)
    bldy := 8
    mosaic := (3 &&& 0xF) ||| ((3 &&& 0xF) <<< 4) |||
      ((3 &&& 0xF) <<< 8) ||| ((3 &&& 0xF) <<< 12) }

/-- Per-scanline table written by `agb_init_hw`: BG0 gets a small sine X
scroll (via the float oracle), every other field is the frame-global
baseline, and `flags = 1` (scroll override enabled) on every line. -/
def initScan (t : FloatOracle) : Nat → Scanline := fun y =>
  { hofs := fun i =>
      if i = 0 then intToU32 (12 + t.scanSin y) else if i = 1 then 100 else 0
    vofs := fun i => if i = 0 then 7 else if i = 1 then 32 else 0
    win0x1 := 8, win0x2 := 112, p0 := 0, p1 := 0
    win1x1 := 0, win1x2 := 0, p2 := 0, p3 := 0
    bldcnt := 0, bldalpha := 0, bldy := 0, flags := 1 }

/-- BG2 affine parameters written by `agb_init_hw`: rotate 30 degrees at
0.75 scale about screen pivot (120,80) and map center (128,128);
`refX = (u0 <<< 8) - pa*x0 - pb*y0` with `u0 <<< 8 = 128 * 256`. -/
def initBgAff (t : FloatOracle) : Fin 4 → AffineParam := fun i =>
  if i = 2 then
    { refX := 128 * 256 - t.cs8 * 120 - (-t.sn8) * 80
      refY := 128 * 256 - t.sn8 * 120 - t.cs8 * 80
      pa := t.cs8, pb := -t.sn8, pc := t.sn8, pd := t.cs8 }
  else { refX := 0, refY := 0, pa := 0, pb := 0, pc := 0, pd := 0 }

/-- OBJ affine set 0 written by `agb_init_hw` (30 degree rotation). -/
def initObjAff (t : FloatOracle) : Nat → ObjAff := fun i =>
  if i = 0 then
    { pa := t.csObj8, pb := -t.snObj8, pc := t.snObj8, pd := t.csObj8 }
  else { pa := 0, pb := 0, pc := 0, pd := 0 }

/-- The complete snapshot produced by `agb_init_hw` on a non-null target
(the target's prior contents are irrelevant: the function starts with
`memset(hw, 0, sizeof *hw)`). -/
def initHwState (t : FloatOracle) : AgbHwState :=
  { vram := initVram, pal_bg := initPalBG, pal_obj := initPalOBJ
    oam := initOAM, bg_params := initBgParams, win := initWin, fx := initFx
    scan := initScan t, bgAff := initBgAff t, objAff := initObjAff t }

/-- `agb_init_hw` (`src/bridge/agb_bridge.cpp`): `if (!hw) return;` — a
null target is rejected before any write; otherwise the target is
overwritten with the demo scene. -/
def agb_init_hw (t : FloatOracle) : Option AgbHwState → Option AgbHwState
  | none => none
  | some _ => some (initHwState t)

/-! ## `agb_sync_to_renderer` — `src/bridge/agb_bridge.cpp` and the upload
helpers in `src/renderer/src/agb_vk.cpp` -/

/-- `SCAN_BYTES` (`src/renderer/src/agb_vk.cpp`): the scanline table buffer
is 160 lines times 80 bytes. -/
def SCAN_BYTES : Nat := 160 * 80

/-- The bytes of a memory region: indices `0 .. n-1` in order. -/
def regionBytes (f : Nat → Fin 256) (n : Nat) : List (Fin 256) :=
  (List.range n).map f

/-- `write_bytes_as_u32` (`src/renderer/src/agb_vk.cpp`): the backend SSBO
is laid out as one `uint32_t` slot per source byte; each slot receives the
byte's value zero-extended (`dst[i] = src[i]`). -/
def write_bytes_as_u32 (src : List (Fin 256)) : List Nat :=
  src.map Fin.val

/-- Reading the low byte of each 32-bit slot back (the inverse direction of
the byte expansion). -/
def unmarshalBytes (ws : List Nat) : List Nat := ws.map (fun w => w &&& 0xFF)

/-- One `BGParam` record flattened to its 8 `uint32_t` words (std430
layout, field order of the C struct). -/
def bgParamWords (p : BGParam) : List Nat :=
  [p.charBase, p.screenBase, p.hofs, p.vofs, p.pri, p.enabled, p.flags, p.pad]

/-- The `bg_params` upload: `AGB_BG_COUNT * AGB_BG_PARAM_DWORDS` words. -/
def bgParamsWords (ps : Fin 4 → BGParam) : List Nat :=
  bgParamWords (ps 0) ++ bgParamWords (ps 1) ++ bgParamWords (ps 2) ++
    bgParamWords (ps 3)

/-- `WinState` flattened to its 12 `uint32_t` words. -/
def winWords (w : WinState) : List Nat :=
  [w.win0x1, w.win0y1, w.win0x2, w.win0y2,
   w.win1x1, w.win1y1, w.win1x2, w.win1y2,
   w.winIn0, w.winIn1, w.winOut, w.winObj]

/-- `FxRegs` flattened to its 4 `uint32_t` words. -/
def fxWords (f : FxRegs) : List Nat := [f.bldcnt, f.bldalpha, f.bldy, f.mosaic]

/-- One `Scanline` record flattened to its 20 `uint32_t` words, in the
exact field order of the C struct: 4 hofs, 4 vofs, WIN0 X slit + 2 padding,
WIN1 X slit + 2 padding, 4 blend-override words ending in `flags`. -/
def scanlineWords (s : Scanline) : List Nat :=
  [s.hofs 0, s.hofs 1, s.hofs 2, s.hofs 3,
   s.vofs 0, s.vofs 1, s.vofs 2, s.vofs 3,
   s.win0x1, s.win0x2, s.p0, s.p1,
   s.win1x1, s.win1x2, s.p2, s.p3,
   s.bldcnt, s.bldalpha, s.bldy, s.flags]

/-- The first `n` records of the scanline table, flattened in index order
(the raw copy performed by `agbvk_upload_scanline`). -/
def scanWordsUpTo (scan : Nat → Scanline) : Nat → List Nat
  | 0 => []
  | n + 1 => scanWordsUpTo scan n ++ scanlineWords (scan n)

/-- The whole marshalled scanline table: `AGB_SCANLINES` records. -/
def marshalScan (scan : Nat → Scanline) : List Nat :=
  scanWordsUpTo scan AGB_SCANLINES

/-- The per-scanline override-enabled flag, as documented in
`src/bridge/agb_bridge.h` ("flags bit 0 = scroll override enabled"):
the low bit of the record's `flags` word. -/
def scanOverrideEnabled (s : Scanline) : Prop := s.flags % 2 = 1

instance (s : Scanline) : Decidable (scanOverrideEnabled s) :=
  inferInstanceAs (Decidable (s.flags % 2 = 1))

/-- One `AffineParam` record flattened to its 6 signed words. -/
def affineWords (a : AffineParam) : List Int :=
  [a.refX, a.refY, a.pa, a.pb, a.pc, a.pd]

/-- The `bgAff` upload: `AGB_BG_AFF_COUNT * 6` signed words. -/
def bgAffWords (f : Fin 4 → AffineParam) : List Int :=
  affineWords (f 0) ++ affineWords (f 1) ++ affineWords (f 2) ++
    affineWords (f 3)

/-- The `objAff` upload: `AGB_OBJ_AFF_COUNT * 4` signed words. -/
def objAffWords (f : Nat → ObjAff) : List Int :=
  (List.range 32).foldr
    (fun i acc => [(f i).pa, (f i).pb, (f i).pc, (f i).pd] ++ acc) []

/-- The renderer-side buffer contents (the ten SSBOs uploaded by
`agb_sync_to_renderer`; byte-oriented regions are stored one word per
byte, the rest as raw 32-bit words). -/
structure RendererState where
  vramBuf : List Nat
  palBgBuf : List Nat
  bgBuf : List Nat
  palObjBuf : List Nat
  oamBuf : List Nat
  winBuf : List Nat
  fxBuf : List Nat
  scanBuf : List Nat
  affBuf : List Int
  objAffBuf : List Int

/-- The non-null branch of `agb_sync_to_renderer`: the ten uploads, in
source order.  VRAM, both palettes and OAM go through
`write_bytes_as_u32`; the remaining buffers are raw word copies. -/
def syncCore (hw : AgbHwState) (_ctx : RendererState) : RendererState :=
  { vramBuf := write_bytes_as_u32 (regionBytes hw.vram AGB_VRAM_SIZE)
    palBgBuf := write_bytes_as_u32 (regionBytes hw.pal_bg AGB_PAL_BG_SIZE)
    bgBuf := bgParamsWords hw.bg_params
    palObjBuf := write_bytes_as_u32 (regionBytes hw.pal_obj AGB_PAL_OBJ_SIZE)
    oamBuf := write_bytes_as_u32 (regionBytes hw.oam AGB_OAM_SIZE)
    winBuf := winWords hw.win
    fxBuf := fxWords hw.fx
    scanBuf := marshalScan hw.scan
    affBuf := bgAffWords hw.bgAff
    objAffBuf := objAffWords hw.objAff }

/-- `agb_sync_to_renderer` (`src/bridge/agb_bridge.cpp`):
`if (!hw || !ctx) return;` — with a null snapshot or context nothing is
uploaded and the renderer state is left untouched; otherwise all ten
buffers are uploaded from the snapshot. -/
def agb_sync_to_renderer (hw? : Option AgbHwState)
    (ctx? : Option RendererState) : Option RendererState :=
  match hw?, ctx? with
  | some hw, some ctx => some (syncCore hw ctx)
  | _, _ => ctx?

/-! ## Helper lemmas for the marshalling claims -/

lemma byte_low_eq (b : Fin 256) : b.val &&& 0xFF = b.val := by
  rw [and_255_eq_mod, Nat.mod_eq_of_lt b.isLt]

lemma unmarshal_marshal (bs : List (Fin 256)) :
    unmarshalBytes (write_bytes_as_u32 bs) = bs.map Fin.val := by
  induction bs with
  | nil => rfl
  | cons b tl ih =>
    show (b.val &&& 0xFF) :: unmarshalBytes (write_bytes_as_u32 tl) =
      b.val :: tl.map Fin.val
    rw [ih, byte_low_eq]

lemma marshal_region_eq (f : Nat → Fin 256) (n : Nat) :
    write_bytes_as_u32 (regionBytes f n) =
      (List.range n).map (fun i => (f i).val) := by
  rw [write_bytes_as_u32, regionBytes, List.map_map]
  rfl

lemma marshal_region_len (f : Nat → Fin 256) (n : Nat) :
    (write_bytes_as_u32 (regionBytes f n)).length = n := by
  rw [marshal_region_eq]
  simp

lemma unmarshal_region (f : Nat → Fin 256) (n : Nat) :
    unmarshalBytes (write_bytes_as_u32 (regionBytes f n)) =
      (List.range n).map (fun i => (f i).val) := by
  rw [unmarshal_marshal, regionBytes, List.map_map]
  rfl

lemma scanWordsUpTo_length (scan : Nat → Scanline) (n : Nat) :
    (scanWordsUpTo scan n).length = 20 * n := by
  induction n with
  | zero => rfl
  | succ n ih =>
    rw [scanWordsUpTo, List.length_append, ih]
    simp [scanlineWords]
    ring

lemma scanWordsUpTo_slice (scan : Nat → Scanline) :
    ∀ n y, y < n →
      ((scanWordsUpTo scan n).drop (20 * y)).take 20 = scanlineWords (scan y) := by
  intro n
  induction n with
  | zero => intro y hy; exact absurd hy (Nat.not_lt_zero y)
  | succ n ih =>
    intro y hy
    rcases Nat.lt_succ_iff_lt_or_eq.mp hy with h | h
    · show ((scanWordsUpTo scan n ++ scanlineWords (scan n)).drop (20 * y)).take 20 = _
      rw [List.drop_append_eq_append_drop]
      rw [List.take_append_of_le_length]
      · exact ih y h
      · rw [List.length_drop, scanWordsUpTo_length]; omega
    · subst h
      show ((scanWordsUpTo scan y ++ scanlineWords (scan y)).drop (20 * y)).take 20 = _
      rw [show 20 * y = (scanWordsUpTo scan y).length from
          (scanWordsUpTo_length scan y).symm]
      rw [List.drop_left]
      exact List.take_of_length_le (by simp [scanlineWords])

/-! ## Claims about the bridge -/

/-- C5: a null snapshot target makes `agb_init_hw` return immediately with
nothing written, and `agb_sync_to_renderer` with a null snapshot or a null
renderer context performs no uploads and leaves the renderer state exactly
as it was. -/
theorem bridge_null_rejection (t : FloatOracle) (hw : AgbHwState)
    (ctx : RendererState) :
    agb_init_hw t none = none ∧
    agb_sync_to_renderer none (some ctx) = some ctx ∧
    agb_sync_to_renderer (some hw) none = none ∧
    agb_sync_to_renderer none none = none :=
  ⟨rfl, rfl, rfl, rfl⟩

/-- C3: for every snapshot, `agb_sync_to_renderer` marshals each
byte-oriented region (video memory, both palettes, the object-attribute
table) as one 32-bit slot per source byte holding that byte zero-extended,
and taking the low byte of every slot back reproduces the region's bytes
bit-for-bit. -/
theorem sync_bytes_as_u32_roundtrip (hw : AgbHwState) (ctx : RendererState) :
    ((syncCore hw ctx).vramBuf.length = AGB_VRAM_SIZE ∧
      (syncCore hw ctx).vramBuf =
        (List.range AGB_VRAM_SIZE).map (fun i => (hw.vram i).val) ∧
      unmarshalBytes (syncCore hw ctx).vramBuf =
        (List.range AGB_VRAM_SIZE).map (fun i => (hw.vram i).val)) ∧
    ((syncCore hw ctx).palBgBuf.length = AGB_PAL_BG_SIZE ∧
      (syncCore hw ctx).palBgBuf =
        (List.range AGB_PAL_BG_SIZE).map (fun i => (hw.pal_bg i).val) ∧
      unmarshalBytes (syncCore hw ctx).palBgBuf =
        (List.range AGB_PAL_BG_SIZE).map (fun i => (hw.pal_bg i).val)) ∧
    ((syncCore hw ctx).palObjBuf.length = AGB_PAL_OBJ_SIZE ∧
      (syncCore hw ctx).palObjBuf =
        (List.range AGB_PAL_OBJ_SIZE).map (fun i => (hw.pal_obj i).val) ∧
      unmarshalBytes (syncCore hw ctx).palObjBuf =
        (List.range AGB_PAL_OBJ_SIZE).map (fun i => (hw.pal_obj i).val)) ∧
    ((syncCore hw ctx).oamBuf.length = AGB_OAM_SIZE ∧
      (syncCore hw ctx).oamBuf =
        (List.range AGB_OAM_SIZE).map (fun i => (hw.oam i).val) ∧
      unmarshalBytes (syncCore hw ctx).oamBuf =
        (List.range AGB_OAM_SIZE).map (fun i => (hw.oam i).val)) := by
  dsimp only [syncCore]
  refine ⟨⟨?_, ?_, ?_⟩, ⟨?_, ?_, ?_⟩, ⟨?_, ?_, ?_⟩, ⟨?_, ?_, ?_⟩⟩
  · exact marshal_region_len hw.vram AGB_VRAM_SIZE
  · exact marshal_region_eq hw.vram AGB_VRAM_SIZE
  · exact unmarshal_region hw.vram AGB_VRAM_SIZE
  · exact marshal_region_len hw.pal_bg AGB_PAL_BG_SIZE
  · exact marshal_region_eq hw.pal_bg AGB_PAL_BG_SIZE
  · exact unmarshal_region hw.pal_bg AGB_PAL_BG_SIZE
  · exact marshal_region_len hw.pal_obj AGB_PAL_OBJ_SIZE
  · exact marshal_region_eq hw.pal_obj AGB_PAL_OBJ_SIZE
  · exact unmarshal_region hw.pal_obj AGB_PAL_OBJ_SIZE
  · exact marshal_region_len hw.oam AGB_OAM_SIZE
  · exact marshal_region_eq hw.oam AGB_OAM_SIZE
  · exact unmarshal_region hw.oam AGB_OAM_SIZE

/-- C6: every marshalled per-scanline override record occupies exactly 20
32-bit words (80 bytes) at stride 20 in the table, laid out as the 4 hofs
words, the 4 vofs words, the WIN0 X-slit pair plus 2 padding words, the
WIN1 X-slit pair plus 2 padding words, and 4 blend-override words whose
last word's low bit is the override-enabled flag; the whole table is
`AGB_SCANLINES = 160` such records (`SCAN_BYTES` bytes). -/
theorem scanline_record_layout (scan : Nat → Scanline) (y : Nat)
    (hy : y < AGB_SCANLINES) :
    (scanlineWords (scan y)).length = 20 ∧
    ((marshalScan scan).drop (20 * y)).take 20 = scanlineWords (scan y) ∧
    (marshalScan scan).length = 20 * AGB_SCANLINES ∧
    4 * (marshalScan scan).length = SCAN_BYTES ∧
    scanlineWords (scan y) =
      [(scan y).hofs 0, (scan y).hofs 1, (scan y).hofs 2, (scan y).hofs 3,
       (scan y).vofs 0, (scan y).vofs 1, (scan y).vofs 2, (scan y).vofs 3,
       (scan y).win0x1, (scan y).win0x2, (scan y).p0, (scan y).p1,
       (scan y).win1x1, (scan y).win1x2, (scan y).p2, (scan y).p3,
       (scan y).bldcnt, (scan y).bldalpha, (scan y).bldy, (scan y).flags] ∧
    (scanlineWords (scan y)).getLast? = some ((scan y).flags) ∧
    (((scan y).flags &&& 1 = 1) ↔ scanOverrideEnabled (scan y)) := by
  refine ⟨rfl, scanWordsUpTo_slice scan AGB_SCANLINES y hy, ?_, ?_, rfl, rfl, ?_⟩
  · exact scanWordsUpTo_length scan AGB_SCANLINES
  · rw [marshalScan, scanWordsUpTo_length]; rfl
  · rw [scanOverrideEnabled, Nat.and_one_is_mod]

/-- Witness for C6: the layout theorem instantiated on the all-zero
scanline table at line 1. -/
theorem scanline_record_layout_witness :
    1 < AGB_SCANLINES ∧
    ((scanlineWords ((fun _ => zeroScanline) 1)).length = 20 ∧
      ((marshalScan (fun _ => zeroScanline)).drop (20 * 1)).take 20 =
        scanlineWords ((fun _ => zeroScanline) 1) ∧
      (marshalScan (fun _ => zeroScanline)).length = 20 * AGB_SCANLINES ∧
      4 * (marshalScan (fun _ => zeroScanline)).length = SCAN_BYTES ∧
      scanlineWords ((fun _ => zeroScanline) 1) =
        [((fun _ => zeroScanline) 1).hofs 0, ((fun _ => zeroScanline) 1).hofs 1,
         ((fun _ => zeroScanline) 1).hofs 2, ((fun _ => zeroScanline) 1).hofs 3,
         ((fun _ => zeroScanline) 1).vofs 0, ((fun _ => zeroScanline) 1).vofs 1,
         ((fun _ => zeroScanline) 1).vofs 2, ((fun _ => zeroScanline) 1).vofs 3,
         ((fun _ => zeroScanline) 1).win0x1, ((fun _ => zeroScanline) 1).win0x2,
         ((fun _ => zeroScanline) 1).p0, ((fun _ => zeroScanline) 1).p1,
         ((fun _ => zeroScanline) 1).win1x1, ((fun _ => zeroScanline) 1).win1x2,
         ((fun _ => zeroScanline) 1).p2, ((fun _ => zeroScanline) 1).p3,
         ((fun _ => zeroScanline) 1).bldcnt, ((fun _ => zeroScanline) 1).bldalpha,
         ((fun _ => zeroScanline) 1).bldy, ((fun _ => zeroScanline) 1).flags] ∧
      (scanlineWords ((fun _ => zeroScanline) 1)).getLast? =
        some (((fun _ => zeroScanline) 1).flags) ∧
      ((((fun _ => zeroScanline) 1).flags &&& 1 = 1) ↔
        scanOverrideEnabled ((fun _ => zeroScanline) 1))) :=
  ⟨by decide, scanline_record_layout (fun _ => zeroScanline) 1 (by decide)⟩

/-- C4: what `agb_init_hw` actually writes for the Window0 demo setup.  The
rectangle is (8,8)-(112,56) and the outside-both-windows mask enables every
layer except the blend effect, as claimed — but the inside-Window0 mask is
`0x33`, which enables BG0 *in addition to* BG1, OBJ and the blend effect,
contradicting the documented intent ("allow BG1 + OBJ + ColorEffect") of
enabling only BG1, OBJ and blend (`0x32`). -/
theorem agb_init_win0_masks (t : FloatOracle) (hw0 : AgbHwState) :
    agb_init_hw t (some hw0) = some (initHwState t) ∧
    (initHwState t).win.win0x1 = 8 ∧
    (initHwState t).win.win0y1 = 8 ∧
    (initHwState t).win.win0x2 = 112 ∧
    (initHwState t).win.win0y2 = 56 ∧
    (initHwState t).win.winOut = 0x1F ∧
    (initHwState t).win.winIn0 = 0x33 ∧
    (initHwState t).win.winIn0 &&& 1 = 1 ∧
    (initHwState t).win.winIn0 ≠ ((1 <<< 1) ||| (1 <<< 4) ||| (1 <<< 5)) := by
  refine ⟨rfl, rfl, rfl, rfl, rfl, rfl, ?_, ?_, ?_⟩
  · show initWin.winIn0 = 0x33
    decide
  · show initWin.winIn0 &&& 1 = 1
    decide
  · show initWin.winIn0 ≠ _
    decide

/-- All hidden OAM entries of the demo scene: attribute word 0 of entries
4..127 stays at the hide pattern `0x0200` written by the initial loop
(entries 0..3 are then overwritten, all at byte offsets below 32). -/
lemma initOAM_hidden_all :
    ∀ i, i < 128 → 4 ≤ i → read16LE initOAM (i * 8) = 0x0200 := by decide

/-- C10: after `agb_init_hw` on a non-null target, every object-attribute
entry with index 4 through 127 has attribute word 0 equal to `0x0200` (the
hide flag for a non-affine sprite), so at most OAM entries 0..3 can
contribute to a frame composed from the demo scene. -/
theorem agb_init_oam_hidden (t : FloatOracle) (i : Nat)
    (hlt : i < 128) (hge : 4 ≤ i) :
    read16LE (initHwState t).oam (i * 8) = 0x0200 :=
  initOAM_hidden_all i hlt hge

/-- Witness for C10: entry 7 of the demo scene is hidden. -/
theorem agb_init_oam_hidden_witness :
    7 < 128 ∧ 4 ≤ 7 ∧
    read16LE (initHwState zeroOracle).oam (7 * 8) = 0x0200 :=
  ⟨by decide, by decide, agb_init_oam_hidden zeroOracle 7 (by decide) (by decide)⟩

/-! ## The Composition Engine (spec §4.2)

The per-pixel composition algorithm executes in the repository's GPU
compute shader `compose_frame.comp`, whose source is not part of the
checked-out tree (only its SPIR-V path and dispatch glue appear in
`src/renderer/src/agb_vk.cpp`).  The definitions in this section are
therefore modelled from the specification's algorithm description, steps
1-8 of §4.2, over the `AgbHwState` snapshot embedded above. -/

namespace compose

/-- Modelled from the spec: the invocation parameters of §6 for the missing
compute shader: `{frameWidth, frameHeight, mapWidth, mapHeight,
objectCharBase, objectMapMode (0=2D, 1=1D)}`. -/
structure DispatchParams where
  frameWidth : Nat
  frameHeight : Nat
  mapWidth : Nat
  mapHeight : Nat
  objCharBase : Nat
  objMapMode : Nat

/-- The parameter block the demo front ends dispatch with (240x160 frame,
32x32 maps, OBJ tiles at 32 KiB). -/
def demoParams : DispatchParams :=
  { frameWidth := 240, frameHeight := 160, mapWidth := 32, mapHeight := 32
    objCharBase := 32 * 1024, objMapMode := 0 }

/-- Modelled from the spec: the register view after scanline resolve
(§4.2 step 1) — the scroll values, window X slits and blend registers that
apply to one line, either the per-line overrides or the frame-global
values. -/
structure LineRegs where
  hofs : Fin 4 → Nat
  vofs : Fin 4 → Nat
  win0x1 : Nat
  win0x2 : Nat
  win1x1 : Nat
  win1x2 : Nat
  bldcnt : Nat
  bldalpha : Nat
  bldy : Nat

/-- Modelled from the spec: scanline resolve (§4.2 step 1) — if `scan[y]`
has its override flag (bit 0) set, substitute its scroll, window-slit and
blend values for the frame-global ones. -/
def resolveScanline (s : AgbHwState) (y : Nat) : LineRegs :=
  let sc := s.scan y
  if sc.flags &&& 1 == 1 then
    { hofs := sc.hofs, vofs := sc.vofs
      win0x1 := sc.win0x1, win0x2 := sc.win0x2
      win1x1 := sc.win1x1, win1x2 := sc.win1x2
      bldcnt := sc.bldcnt, bldalpha := sc.bldalpha, bldy := sc.bldy }
  else
    { hofs := fun b => (s.bg_params b).hofs
      vofs := fun b => (s.bg_params b).vofs
      win0x1 := s.win.win0x1, win0x2 := s.win.win0x2
      win1x1 := s.win.win1x1, win1x2 := s.win.win1x2
      bldcnt := s.fx.bldcnt, bldalpha := s.fx.bldalpha, bldy := s.fx.bldy }

/-- Modelled from the spec: mosaic quantization (§4.2 step 2) — truncate a
coordinate to the origin of its mosaic block of size `g`. -/
def quant (c g : Nat) : Nat := c - c % g

/-- Modelled from the spec: text-mode background sampling (§4.2 step 2).
Map cell from `(x+hofs, y+vofs)` (mosaic-quantized first when the
background's mosaic flag is set), 2-byte map entry (tile index, h/v flip,
palette bank), 4bpp tile data resolved through the chosen 16-color bank;
index 0 is transparent. -/
def bgTextSample (p : DispatchParams) (s : AgbHwState) (lr : LineRegs)
    (b : Fin 4) (x y : Nat) : Option Nat :=
  let bp := s.bg_params b
  let bgH := (s.fx.mosaic &&& 0xF) + 1
  let bgV := ((s.fx.mosaic >>> 4) &&& 0xF) + 1
  let mosOn := (bp.flags &&& AGB_BG_FLAG_MOSAIC) != 0
  let mx := if mosOn then quant x bgH else x
  let my := if mosOn then quant y bgV else y
  let sx := mx + lr.hofs b
  let sy := my + lr.vofs b
  let tx := (sx / 8) % p.mapWidth
  let ty := (sy / 8) % p.mapHeight
  let entry := read16LE s.vram (bp.screenBase + 2 * (ty * p.mapWidth + tx))
  let tile := entry &&& 0x3FF
  let fx1 := if (entry >>> 10) &&& 1 == 1 then 7 - sx % 8 else sx % 8
  let fy1 := if (entry >>> 11) &&& 1 == 1 then 7 - sy % 8 else sy % 8
  let bank := (entry >>> 12) &&& 0xF
  let byte := (s.vram (bp.charBase + tile * 32 + fy1 * 4 + fx1 / 2)).val
  let idx := if fx1 % 2 == 0 then byte &&& 0xF else byte >>> 4
  if idx == 0 then none else some (read16LE s.pal_bg (2 * (bank * 16 + idx)))

/-- Modelled from the spec: affine background sampling (§4.2 step 2).
Apply the background's 8.8 transform relative to the stored reference
point; wrap modulo map size when the `wrap` flag is set, otherwise
out-of-bounds samples are transparent.  Map entries are 1 byte (tile index
only); tiles are 8bpp through the 256-color bank; index 0 transparent. -/
def bgAffineSample (p : DispatchParams) (s : AgbHwState) (b : Fin 4)
    (x y : Nat) : Option Nat :=
  let bp := s.bg_params b
  let aff := s.bgAff b
  let u := aff.refX + aff.pa * (x : Int) + aff.pb * (y : Int)
  let v := aff.refY + aff.pc * (x : Int) + aff.pd * (y : Int)
  let mpx := p.mapWidth * 8
  let mpy := p.mapHeight * 8
  let ui := u >>> (8 : Nat)
  let vi := v >>> (8 : Nat)
  let uv : Option (Nat × Nat) :=
    if (bp.flags &&& AGB_BG_FLAG_WRAP) != 0 then
      some ((ui % (mpx : Int)).toNat, (vi % (mpy : Int)).toNat)
    else if 0 ≤ ui ∧ ui < (mpx : Int) ∧ 0 ≤ vi ∧ vi < (mpy : Int) then
      some (ui.toNat, vi.toNat)
    else none
  match uv with
  | none => none
  | some (uu, vv) =>
    let tile := (s.vram (bp.screenBase + (vv / 8) * p.mapWidth + (uu / 8))).val
    let idx := (s.vram (bp.charBase + tile * 64 + (vv % 8) * 8 + (uu % 8))).val
    if idx == 0 then none else some (read16LE s.pal_bg (2 * idx))

/-- Modelled from the spec: background sampling dispatch — a background
with the affine flag samples in affine mode, otherwise in text mode. -/
def bgSample (p : DispatchParams) (s : AgbHwState) (lr : LineRegs)
    (b : Fin 4) (x y : Nat) : Option Nat :=
  if ((s.bg_params b).flags &&& AGB_BG_FLAG_AFFINE) != 0 then
    bgAffineSample p s b x y
  else bgTextSample p s lr b x y

/-- Modelled from the spec: the sprite size classes referenced in §3
(shape square/wide/tall crossed with the 2-bit size class), in pixels. -/
def objSize (shape size : Nat) : Nat × Nat :=
  if shape == 0 then
    if size == 0 then (8, 8) else if size == 1 then (16, 16)
    else if size == 2 then (32, 32) else (64, 64)
  else if shape == 1 then
    if size == 0 then (16, 8) else if size == 1 then (32, 8)
    else if size == 2 then (32, 16) else (64, 32)
  else
    if size == 0 then (8, 16) else if size == 1 then (8, 32)
    else if size == 2 then (16, 32) else (32, 64)

/-- Modelled from the spec: one sprite contribution — packed color,
priority and the semi-transparent flag (§4.2 step 3). -/
structure ObjPix where
  color : Nat
  pri : Nat
  semi : Bool

/-- Modelled from the spec: sampling one OAM entry at a pixel (§4.2 steps
3-4).  `windowPass = false` is the visible pass (hidden and OBJ-window-mode
entries are skipped); `windowPass = true` evaluates only OBJ-window-mode
entries, for coverage.  The bounding box comes from position, shape and
size (doubled for affine double-size); texel coordinates are reached
directly with h/v flip for non-affine sprites, or through the sprite's 8.8
affine set relative to the sprite's center (out-of-bounds means no
coverage); tile addressing honors the dispatch-wide 2D/1D mode (2D: a grid
32 tile-columns wide; 1D: advance by the sprite's own tile width); index 0
is transparent. -/
def objSample (p : DispatchParams) (s : AgbHwState) (windowPass : Bool)
    (i x y : Nat) : Option ObjPix :=
  let a0 := read16LE s.oam (i * 8)
  let a1 := read16LE s.oam (i * 8 + 2)
  let a2 := read16LE s.oam (i * 8 + 4)
  let affine := (a0 >>> 8) &&& 1 == 1
  let bit9 := (a0 >>> 9) &&& 1 == 1
  let mode := (a0 >>> 10) &&& 3
  if !affine && bit9 then none
  else if (mode == 2) != windowPass then none
  else
    let mos := (a0 >>> 12) &&& 1 == 1
    let bpp8 := (a0 >>> 13) &&& 1 == 1
    let shape := (a0 >>> 14) &&& 3
    let oy := a0 &&& 0xFF
    let ox := a1 &&& 0x1FF
    let size := (a1 >>> 14) &&& 3
    let wh := objSize shape size
    let w := wh.1
    let h := wh.2
    let dbl := affine && bit9
    let bw := if dbl then 2 * w else w
    let bh := if dbl then 2 * h else h
    let objH := ((s.fx.mosaic >>> 8) &&& 0xF) + 1
    let objV := ((s.fx.mosaic >>> 12) &&& 0xF) + 1
    let qx := if mos then quant x objH else x
    let qy := if mos then quant y objV else y
    if ox ≤ qx ∧ qx < ox + bw ∧ oy ≤ qy ∧ qy < oy + bh then
      let lx := qx - ox
      let ly := qy - oy
      let tex : Option (Nat × Nat) :=
        if affine then
          let aIdx := (a1 >>> 9) &&& 0x1F
          let oa := s.objAff aIdx
          let dx := (lx : Int) - (bw : Int) / 2
          let dy := (ly : Int) - (bh : Int) / 2
          let tu := ((w : Int) / 2) * 256 + oa.pa * dx + oa.pb * dy
          let tv := ((h : Int) / 2) * 256 + oa.pc * dx + oa.pd * dy
          let ui := tu >>> (8 : Nat)
          let vi := tv >>> (8 : Nat)
          if 0 ≤ ui ∧ ui < (w : Int) ∧ 0 ≤ vi ∧ vi < (h : Int) then
            some (ui.toNat, vi.toNat)
          else none
        else
          let hf := (a1 >>> 12) &&& 1 == 1
          let vf := (a1 >>> 13) &&& 1 == 1
          some (if hf then w - 1 - lx else lx, if vf then h - 1 - ly else ly)
      match tex with
      | none => none
      | some (tu, tv) =>
        let tileIndex := a2 &&& 0x3FF
        let priO := (a2 >>> 10) &&& 3
        let bank := (a2 >>> 12) &&& 0xF
        let step := if bpp8 then 2 else 1
        let tileNum :=
          if p.objMapMode == 1 then
            tileIndex + ((tv / 8) * (w / 8) + tu / 8) * step
          else tileIndex + (tv / 8) * 32 + (tu / 8) * step
        let idx :=
          if bpp8 then
            (s.vram (p.objCharBase + tileNum * 32 + (tv % 8) * 8 + tu % 8)).val
          else
            let byte :=
              (s.vram (p.objCharBase + tileNum * 32 + (tv % 8) * 4 + (tu % 8) / 2)).val
            if tu % 2 == 0 then byte &&& 0xF else byte >>> 4
        if idx == 0 then none
        else
          let col :=
            if bpp8 then read16LE s.pal_obj (2 * idx)
            else read16LE s.pal_obj (2 * (bank * 16 + idx))
          some { color := col, pri := priO, semi := mode == 1 }
    else none

/-- Modelled from the spec: the visible sprite pass (§4.2 step 3) — scan
the 128 OAM entries in index order and keep the first opaque visible
contribution (lowest index wins ties). -/
def firstOpaqueObj (p : DispatchParams) (s : AgbHwState) (x y : Nat) :
    Option ObjPix :=
  (List.range 128).findSome? (fun i => objSample p s false i x y)

/-- Modelled from the spec: the OBJ-window pass (§4.2 step 4) — any opaque
coverage by an OBJ-window-mode sprite marks the pixel inside the
OBJ window. -/
def objWindowCovered (p : DispatchParams) (s : AgbHwState) (x y : Nat) : Bool :=
  ((List.range 128).findSome? (fun i => objSample p s true i x y)).isSome

/-- Modelled from the spec: window resolution (§4.2 step 5) — Window0,
then Window1, then the OBJ window, then outside, each selecting its
6-bit layer-enable mask; the X slits come from the resolved line
registers, the Y extents from the frame-global rectangles. -/
def activeMask (s : AgbHwState) (lr : LineRegs) (objCov : Bool)
    (x y : Nat) : Nat :=
  if lr.win0x1 ≤ x ∧ x < lr.win0x2 ∧ s.win.win0y1 ≤ y ∧ y < s.win.win0y2 then
    s.win.winIn0
  else if lr.win1x1 ≤ x ∧ x < lr.win1x2 ∧ s.win.win1y1 ≤ y ∧ y < s.win.win1y2 then
    s.win.winIn1
  else if objCov then s.win.winObj
  else s.win.winOut

/-- Bit `b` of a layer-enable or blend-target mask. -/
def maskBit (mask b : Nat) : Bool := (mask >>> b) &&& 1 == 1

/-- Modelled from the spec: one surviving layer entering priority
composition (§4.2 step 6): packed color, configured priority, a tie-break
rank (`sub`: sprites 0, then BG0..BG3, backdrop last — sprites rank above
a background of equal priority), its blend-target bit index
(BG0..BG3 = 0..3, OBJ = 4, backdrop = 5) and the semi-transparent flag. -/
structure Layer where
  color : Nat
  pri : Nat
  sub : Nat
  lbit : Nat
  semi : Bool

/-- Strict front-of ordering for layers: lower priority value wins, then
the tie-break rank. -/
def better (a b : Layer) : Bool :=
  Nat.blt a.pri b.pri || (Nat.beq a.pri b.pri && Nat.blt a.sub b.sub)

/-- Modelled from the spec: select the frontmost opaque contributor and
the frontmost contributor beneath it (§4.2 step 6); with no opaque
contributor both default to the backdrop. -/
def pickTop2 (l : List Layer) (bd : Layer) : Layer × Layer :=
  l.foldl (fun ts c =>
    if better c ts.1 then (c, ts.1)
    else if better c ts.2 then (ts.1, c)
    else ts) (bd, bd)

/-- The 5-bit channel of a packed 5-5-5 color at a bit offset. -/
def ch5 (c sh : Nat) : Nat := (c >>> sh) &&& 0x1F

/-- Repack three 5-bit channels (red in bits 0-4, green 5-9, blue 10-14). -/
def pack555 (r g b : Nat) : Nat := r ||| (g <<< 5) ||| (b <<< 10)

/-- Modelled from the spec: alpha blend (§4.2 step 7) —
`top*EVA/16 + second*EVB/16` per channel, clamped to the channel maximum. -/
def blendAlpha (t u eva evb : Nat) : Nat :=
  pack555 (min 31 (ch5 t 0 * eva / 16 + ch5 u 0 * evb / 16))
    (min 31 (ch5 t 5 * eva / 16 + ch5 u 5 * evb / 16))
    (min 31 (ch5 t 10 * eva / 16 + ch5 u 10 * evb / 16))

/-- Modelled from the spec: brighten (§4.2 step 7) —
`top + (max - top)*EVY/16` per channel. -/
def brighten (t evy : Nat) : Nat :=
  pack555 (ch5 t 0 + (31 - ch5 t 0) * evy / 16)
    (ch5 t 5 + (31 - ch5 t 5) * evy / 16)
    (ch5 t 10 + (31 - ch5 t 10) * evy / 16)

/-- Modelled from the spec: darken (§4.2 step 7) — `top - top*EVY/16`
per channel. -/
def darken (t evy : Nat) : Nat :=
  pack555 (ch5 t 0 - ch5 t 0 * evy / 16)
    (ch5 t 5 - ch5 t 5 * evy / 16)
    (ch5 t 10 - ch5 t 10 * evy / 16)

/-- Modelled from the spec: `composePixel(x, y, snapshot) -> packedColor`
(§4.2, the whole per-pixel algorithm of the missing compute shader):
scanline resolve, background and sprite sampling, OBJ-window coverage,
window masking, priority composition with backdrop fallback, blend
resolution (a semi-transparent top sprite forces alpha blending), and the
final pack into an RGBA8 word (byte 0 = R, byte 1 = G, byte 2 = B,
byte 3 = 255; the spec leaves the 5-to-8-bit expansion open, taken here as
a left shift by 3). -/
def composePixel (p : DispatchParams) (s : AgbHwState) (x y : Nat) : Nat :=
  let lr := resolveScanline s y
  let objCov := objWindowCovered p s x y
  let mask := activeMask s lr objCov x y
  let objLayer : Option Layer :=
    if maskBit mask 4 then
      match firstOpaqueObj p s x y with
      | some op =>
        some ⟨op.color, op.pri, 0, 4, op.semi⟩
      | none => none
    else none
  let bgLayer : Fin 4 → Option Layer := fun b =>
    if (s.bg_params b).enabled != 0 && maskBit mask (b : Nat) then
      match bgSample p s lr b x y with
      | some c =>
        some ⟨c, (s.bg_params b).pri, (b : Nat) + 1, (b : Nat), false⟩
      | none => none
    else none
  let cands := objLayer.toList ++ (bgLayer 0).toList ++ (bgLayer 1).toList ++
    (bgLayer 2).toList ++ (bgLayer 3).toList
  let backdrop : Layer :=
    { color := read16LE s.pal_bg 0, pri := 4, sub := 9, lbit := 5, semi := false }
  let ts := pickTop2 cands backdrop
  let top := ts.1
  let second := ts.2
  let mode := (lr.bldcnt >>> 6) &&& 3
  let aT := lr.bldcnt &&& 0x3F
  let bT := (lr.bldcnt >>> 8) &&& 0x3F
  let eva := lr.bldalpha &&& 0x1F
  let evb := (lr.bldalpha >>> 8) &&& 0x1F
  let evy := lr.bldy &&& 0x1F
  let effMode := if top.semi then 1 else mode
  let out555 :=
    if maskBit mask 5 && (top.semi || maskBit aT top.lbit) then
      if effMode == 1 then
        if maskBit bT second.lbit then blendAlpha top.color second.color eva evb
        else top.color
      else if effMode == 2 then brighten top.color evy
      else if effMode == 3 then darken top.color evy
      else top.color
    else top.color
  (ch5 out555 0 <<< 3) ||| (ch5 out555 5 <<< 3 <<< 8) |||
    (ch5 out555 10 <<< 3 <<< 16) ||| (255 <<< 24)

/-- Modelled from the spec: `composeFrame` as an explicit pixel-evaluation
order — write `composePixel` results into a framebuffer one pixel at a
time, in the order given by the list (§4.2 contract and §5: any worker
order must produce the same image). -/
def renderList (p : DispatchParams) (s : AgbHwState) (l : List (Nat × Nat))
    (fb : Nat × Nat → Nat) : Nat × Nat → Nat :=
  l.foldl (fun acc q => fun q2 =>
    if q2 = q then composePixel p s q.1 q.2 else acc q2) fb

lemma renderList_apply (p : DispatchParams) (s : AgbHwState)
    (l : List (Nat × Nat)) (fb : Nat × Nat → Nat) (q : Nat × Nat) :
    renderList p s l fb q =
      if q ∈ l then composePixel p s q.1 q.2 else fb q := by
  induction l generalizing fb with
  | nil => simp [renderList]
  | cons a tl ih =>
    show renderList p s tl
      (fun q2 => if q2 = a then composePixel p s a.1 a.2 else fb q2) q = _
    rw [ih]
    by_cases hq : q ∈ tl
    · simp [hq]
    · by_cases hqa : q = a
      · subst hqa
        simp [hq]
      · simp [hq, hqa]

end compose

/-- C7: for every snapshot and pixel, `composePixel` is a deterministic
pure function of `(x, y, snapshot)` — two evaluations on the same inputs
produce the same packed color — and composing a frame pixel-by-pixel in
any order yields an identical image: evaluation orders that are
permutations of one another produce equal framebuffers.  (The composition
engine is modelled from the spec, §4.2 and §5, since the repository's
compute shader source is not in the tree.) -/
theorem composePixel_deterministic_order_independent
    (p : compose.DispatchParams) (s : AgbHwState) (x y : Nat)
    (fb : Nat × Nat → Nat) (l1 l2 : List (Nat × Nat)) (h : l1.Perm l2) :
    compose.composePixel p s x y = compose.composePixel p s x y ∧
    compose.renderList p s l1 fb = compose.renderList p s l2 fb := by
  refine ⟨rfl, funext fun q => ?_⟩
  rw [compose.renderList_apply, compose.renderList_apply]
  by_cases hq : q ∈ l1
  · rw [if_pos hq, if_pos (h.mem_iff.mp hq)]
  · rw [if_neg hq, if_neg fun hh => hq (h.mem_iff.mpr hh)]

/-- Witness for C7: two pixels of the demo scene evaluated in the two
possible orders. -/
theorem composePixel_deterministic_order_independent_witness :
    ([((0 : Nat), (0 : Nat)), ((1 : Nat), (0 : Nat))]).Perm
      [((1 : Nat), (0 : Nat)), ((0 : Nat), (0 : Nat))] ∧
    (compose.composePixel compose.demoParams (initHwState zeroOracle) 0 0 =
        compose.composePixel compose.demoParams (initHwState zeroOracle) 0 0 ∧
      compose.renderList compose.demoParams (initHwState zeroOracle)
          [((0 : Nat), (0 : Nat)), ((1 : Nat), (0 : Nat))] (fun _ => 0) =
        compose.renderList compose.demoParams (initHwState zeroOracle)
          [((1 : Nat), (0 : Nat)), ((0 : Nat), (0 : Nat))] (fun _ => 0)) :=
  ⟨List.Perm.swap ((1 : Nat), (0 : Nat)) ((0 : Nat), (0 : Nat)) [],
    composePixel_deterministic_order_independent compose.demoParams
      (initHwState zeroOracle) 0 0 (fun _ => 0)
      [((0 : Nat), (0 : Nat)), ((1 : Nat), (0 : Nat))]
      [((1 : Nat), (0 : Nat)), ((0 : Nat), (0 : Nat))]
      (List.Perm.swap ((1 : Nat), (0 : Nat)) ((0 : Nat), (0 : Nat)) [])⟩
